import Mathlib

/- Shallow embedding of src/booking_app.py (DIPP study booking system).

Dates are modelled as proleptic-Gregorian ordinals (day 1 = 0001-01-01), exactly
as Python's datetime.date.toordinal; weekday 0 = Monday, as datetime.date.weekday.
The pandas DataFrame of bookings is modelled as a list of string-field records in
the sheet's column order; the Google-Sheets persistence layer is identified with
the in-memory state it mirrors (the source appends/updates the sheet and the
DataFrame with the same row). -/

def isLeap (y : Nat) : Bool :=
  (y % 4 == 0 && y % 100 != 0) || y % 400 == 0

def daysInMonth (y m : Nat) : Nat :=
  if m = 2 then (if isLeap y then 29 else 28)
  else if m = 4 ∨ m = 6 ∨ m = 9 ∨ m = 11 then 30
  else 31

def daysBeforeMonth (y m : Nat) : Nat :=
  (List.range (m - 1)).foldl (fun acc i => acc + daysInMonth y (i + 1)) 0

def daysBeforeYear (y : Nat) : Nat :=
  (y - 1) * 365 + (y - 1) / 4 - (y - 1) / 100 + (y - 1) / 400

/-- Ordinal of a calendar date, as datetime.date.toordinal (0001-01-01 = 1). -/
def toOrd (y m d : Nat) : Int :=
  ((daysBeforeYear y + daysBeforeMonth y m + d : Nat) : Int)

/-- Weekday of an ordinal, as datetime.date.weekday (0 = Monday .. 6 = Sunday). -/
def weekday (d : Int) : Int := (d - 1) % 7

/-- Civil date from an ordinal (Gregorian conversion, valid for ordinals of real
dates; all intermediate divisions act on nonnegative values there). -/
def civilFromOrd (n : Int) : Nat × Nat × Nat :=
  let z := n + 305
  let era := z / 146097
  let doe := z - era * 146097
  let yoe := (doe - doe / 1460 + doe / 36524 - doe / 146096) / 365
  let y := yoe + era * 400
  let doy := doe - (365 * yoe + yoe / 4 - yoe / 100)
  let mp := (5 * doy + 2) / 153
  let dd := doy - (153 * mp + 2) / 5 + 1
  let m := if mp < 10 then mp + 3 else mp - 9
  let yy := if m ≤ 2 then y + 1 else y
  (yy.toNat, m.toNat, dd.toNat)

def padZeros (width n : Nat) : String :=
  let s := toString n
  if s.length < width then (List.replicate (width - s.length) '0').asString ++ s else s

/-- Serialization of a date ordinal, as Python strftime with format Y-m-d. -/
def formatDate (d : Int) : String :=
  let c := civilFromOrd d
  padZeros 4 c.1 ++ "-" ++ padZeros 2 c.2.1 ++ "-" ++ padZeros 2 c.2.2

/-- Split a character list at every dash, as Python str.split with a dash
separator (kept structural so that it evaluates inside the kernel). -/
def splitDashChars : List Char → List (List Char)
  | [] => [[]]
  | c :: rest =>
    let r := splitDashChars rest
    if c = '-' then [] :: r
    else
      match r with
      | [] => [[c]]
      | g :: gs => (c :: g) :: gs

def digitVal (c : Char) : Option Nat :=
  if '0' ≤ c ∧ c ≤ '9' then some (c.toNat - '0'.toNat) else none

/-- Decimal value of a nonempty all-digit character list, else none. -/
def natOfChars (cs : List Char) : Option Nat :=
  cs.foldl
    (fun acc c =>
      match acc, digitVal c with
      | some n, some d => some (n * 10 + d)
      | _, _ => none)
    (if cs.isEmpty then none else some 0)

/-- Parsing of a date string, as Python datetime.strptime with format Y-m-d:
a 4-digit year, a 1-2 digit month in 1..12, a 1-2 digit day valid for that
month, separated by single dashes; anything else fails. -/
def parseDate (s : String) : Option Int :=
  match splitDashChars s.data with
  | [ys, ms, ds] =>
    match natOfChars ys, natOfChars ms, natOfChars ds with
    | some y, some m, some d =>
      if ys.length = 4 ∧ (ms.length = 1 ∨ ms.length = 2) ∧
          (ds.length = 1 ∨ ds.length = 2) ∧
          1 ≤ y ∧ 1 ≤ m ∧ m ≤ 12 ∧ 1 ≤ d ∧ d ≤ daysInMonth y m then
        some (toOrd y m d)
      else none
    | _, _, _ => none
  | _ => none

/-- One row of the bookings table, in the sheet's column order; every field is a
string at the storage boundary, as in the source. -/
structure Booking where
  name : String
  participant_id : String
  email : String
  group : String
  baseline_date : String
  baseline_time : String
  pre_dosing_date : String
  pre_dosing_time : String
  dosing_date : String
  dosing_time : String
  follow_up_date : String
  follow_up_time : String
  booking_status : String
  notes : String
  booking_time : String
  cancellation_time : String
deriving DecidableEq

/-- All anchor candidates of StudyBookingSystem.get_dosing_dates before the
booked-date exclusion: the dates of the hardcoded horizon 2025-05-01..2025-11-29
whose weekday equals the target. -/
def dosing_candidates (target : Int) : List Int :=
  let start_date := toOrd 2025 5 1
  let end_date := toOrd 2025 11 29
  let dates := (List.range ((end_date - start_date).toNat + 1)).map
      (fun (i : Nat) => start_date + (i : Int))
  dates.filter (fun d => weekday d == target)

/-- The booked-date set of StudyBookingSystem.get_dosing_dates: dosing_date
fields of Active rows that parse as dates; rows that fail to parse are skipped
(the source's try/except around strptime). -/
def booked_dosing_dates (bookings : List Booking) : List Int :=
  (bookings.filter (fun b => b.booking_status == "Active")).filterMap
    (fun b => parseDate b.dosing_date)

/-- StudyBookingSystem.get_dosing_dates. -/
def get_dosing_dates (group : String) (bookings : List Booking) : List Int :=
  let target : Int := if group == "WEDNESDAY" then 2 else 5
  (dosing_candidates target).filter
    (fun d => !(decide (d ∈ booked_dosing_dates bookings)))

/-- StudyBookingSystem.get_pre_scan_date. -/
def get_pre_scan_date (dosing_date : Int) : Int := dosing_date - 1

/-- The source's while-loop stepping one day back until the weekday is Monday,
with explicit fuel (the loop always terminates within 7 steps, proved below). -/
def stepBackToMonday : Nat → Int → Option Int
  | 0, _ => none
  | fuel + 1, current =>
    if weekday current = 0 then some current
    else stepBackToMonday fuel (current - 1)

/-- The source's while-loop stepping one day forward until the weekday equals
the target, with explicit fuel. -/
def stepFwdToWeekday (target : Int) : Nat → Int → Option Int
  | 0, _ => none
  | fuel + 1, current =>
    if weekday current = target then some current
    else stepFwdToWeekday target fuel (current + 1)

/-- StudyBookingSystem.get_follow_up_date: from dosing_date + 14 advance to the
group's follow-up weekday (3 = Thursday for WEDNESDAY, 6 = Sunday otherwise). -/
def get_follow_up_date (dosing_date : Int) (group : String) : Option Int :=
  let target : Int := if group == "WEDNESDAY" then 3 else 6
  stepFwdToWeekday target 7 (dosing_date + 14)

/-- StudyBookingSystem.get_baseline_date: from dosing_date - 22 walk back to the
nearest Monday; return it only if it is not before dosing_date - 60. -/
def get_baseline_date (dosing_date : Int) : Option Int :=
  match stepBackToMonday 7 (dosing_date - 22) with
  | none => none
  | some current => if dosing_date - 60 ≤ current then some current else none

/-- StudyBookingSystem.get_available_pre_dosing_times. -/
def get_available_pre_dosing_times (pre_dosing_date : Int) (group : String)
    (bookings : List Booking) : List String :=
  if bookings.isEmpty then ["Daytime", "Evening"]
  else
    let date_str := formatDate pre_dosing_date
    let taken := (bookings.filter
        (fun b => b.booking_status == "Active" && b.pre_dosing_date == date_str)).map
      (fun b => b.pre_dosing_time)
    (["Daytime", "Evening"] : List String).filter (fun t => !(decide (t ∈ taken)))

/-- StudyBookingSystem.get_available_follow_up_times. -/
def get_available_follow_up_times (follow_up_date : Int) (group : String)
    (bookings : List Booking) : List String :=
  if bookings.isEmpty then ["Daytime", "Evening"]
  else
    let date_str := formatDate follow_up_date
    let taken := (bookings.filter
        (fun b => b.booking_status == "Active" && b.follow_up_date == date_str)).map
      (fun b => b.follow_up_time)
    (["Daytime", "Evening"] : List String).filter (fun t => !(decide (t ∈ taken)))

/-- StudyBookingSystem.check_baseline_availability. -/
def check_baseline_availability (baseline_date : Int) (group : String)
    (bookings : List Booking) : Bool :=
  if bookings.isEmpty then true
  else
    let date_str := formatDate baseline_date
    let time := if group == "WEDNESDAY" then "Daytime" else "Evening"
    let matching := bookings.filter
      (fun b => b.booking_status == "Active" && b.baseline_date == date_str &&
        b.baseline_time == time)
    matching.isEmpty

/-- StudyBookingSystem.validate_booking (the source's underscore-private method),
with the same early-return chain. -/
def validate_booking (baseline pre_dosing dosing follow_up : Int)
    (group : String) : Bool :=
  if group == "WEDNESDAY" && weekday dosing != 2 then false
  else if group == "SATURDAY" && weekday dosing != 5 then false
  else if dosing - pre_dosing != 1 then false
  else if decide (dosing - baseline < 22) || weekday baseline != 0 then false
  else if group == "WEDNESDAY" && weekday follow_up != 3 then false
  else if group == "SATURDAY" && weekday follow_up != 6 then false
  else true

/-- The row that StudyBookingSystem.book_participant constructs and appends. -/
def new_booking_record (name participant_id email group : String)
    (baseline_date pre_dosing_date dosing_date follow_up_date : Int)
    (pre_dosing_time follow_up_time now : String) : Booking :=
  { name := name
    participant_id := participant_id
    email := email
    group := group
    baseline_date := formatDate baseline_date
    baseline_time := if group == "WEDNESDAY" then "Daytime" else "Evening"
    pre_dosing_date := formatDate pre_dosing_date
    pre_dosing_time := pre_dosing_time
    dosing_date := formatDate dosing_date
    dosing_time := "All Day"
    follow_up_date := formatDate follow_up_date
    follow_up_time := follow_up_time
    booking_status := "Active"
    notes := ""
    booking_time := now
    cancellation_time := "" }

/-- StudyBookingSystem.book_participant: validate dates, reject a duplicate
Active participant id, otherwise append the new row (to the sheet and the
DataFrame alike) and report success. The wall-clock booking timestamp is passed
in as the argument now. -/
def book_participant (name participant_id email group : String)
    (baseline_date pre_dosing_date dosing_date follow_up_date : Int)
    (pre_dosing_time follow_up_time now : String)
    (bookings : List Booking) : (Bool × String) × List Booking :=
  if !(validate_booking baseline_date pre_dosing_date dosing_date follow_up_date group) then
    ((false, "Invalid booking dates. Please try again with different dates."), bookings)
  else
    let active_bookings := bookings.filter (fun b => b.booking_status == "Active")
    if active_bookings.any (fun b => b.participant_id == participant_id) then
      ((false, "Participant ID already has an active booking"), bookings)
    else
      ((true, "Booking successful"),
        bookings ++ [new_booking_record name participant_id email group
          baseline_date pre_dosing_date dosing_date follow_up_date
          pre_dosing_time follow_up_time now])

/-- The field update StudyBookingSystem.cancel_booking applies to the row it
found: status Cancelled, a prefixed reason in notes, the cancellation time. -/
def cancelFields (reason now : String) (b : Booking) : Booking :=
  { b with booking_status := "Cancelled"
           notes := "Cancelled: " ++ reason
           cancellation_time := now }

/-- Cancellation updates the first row whose participant_id matches (the
source's sheet.find / matching_bookings.index[0], with no status filter). -/
def updateFirstMatch (participant_id reason now : String) : List Booking → List Booking
  | [] => []
  | b :: rest =>
    if b.participant_id == participant_id then cancelFields reason now b :: rest
    else b :: updateFirstMatch participant_id reason now rest

/-- StudyBookingSystem.cancel_booking: fail if no row (of any status) has the
participant id, otherwise overwrite the cancellation fields of the first
matching row and report success. -/
def cancel_booking (participant_id reason now : String)
    (bookings : List Booking) : (Bool × String) × List Booking :=
  let matching := bookings.filter (fun b => b.participant_id == participant_id)
  if matching.isEmpty then
    ((false, "Could not find booking for participant ID: " ++ participant_id), bookings)
  else
    ((true, "Booking cancelled successfully"), updateFirstMatch participant_id reason now bookings)

/-- Modelled from the spec: the clock-interval availability resolver of spec
section 4.2 is not implemented in src/booking_app.py (the source uses only the
categorical Daytime/Evening labels), so it is modelled here from the spec's
words: a slot is a start time plus a fixed session duration, and a proposal
conflicts with an active booking of the same visit kind and date exactly when
max(startA, startB) < min(endA, endB) on the half-open intervals
[start, start + duration). Times are minutes since midnight. -/
structure IntervalBooking where
  visit_date : Int
  start_minutes : Nat
  duration_minutes : Nat
  visit_kind : String
  status : String
deriving DecidableEq

/-- Modelled from the spec: half-open interval overlap of two slots. -/
def intervalConflict (aStart aDur bStart bDur : Nat) : Bool :=
  decide (max aStart bStart < min (aStart + aDur) (bStart + bDur))

/-- Modelled from the spec: the clock-interval case of is_available. -/
def interval_is_available (pdate : Int) (kind : String) (pstart pdur : Nat)
    (snapshot : List IntervalBooking) : Bool :=
  !(snapshot.any (fun b =>
    b.status == "Active" && b.visit_kind == kind && b.visit_date == pdate &&
      intervalConflict pstart pdur b.start_minutes b.duration_minutes))

/-- An Active booking of another participant occupying the whole 2025-06-04
visit schedule (baseline 2025-05-12 Daytime, pre-dosing 2025-06-03 Daytime,
dosing 2025-06-04, follow-up 2025-06-19 Daytime). -/
def bookingQ : Booking :=
  { name := "Quinn"
    participant_id := "P002"
    email := "q@example.com"
    group := "WEDNESDAY"
    baseline_date := "2025-05-12"
    baseline_time := "Daytime"
    pre_dosing_date := "2025-06-03"
    pre_dosing_time := "Daytime"
    dosing_date := "2025-06-04"
    dosing_time := "All Day"
    follow_up_date := "2025-06-19"
    follow_up_time := "Daytime"
    booking_status := "Active"
    notes := ""
    booking_time := "2025-05-01 10:00:00"
    cancellation_time := "" }

/-- An Active booking of participant P001. -/
def activeP1 : Booking :=
  { bookingQ with
    participant_id := "P001"
    name := "Pat" }

/-- A Cancelled booking of participant P001, with its original cancellation
audit fields. -/
def cancelledP1 : Booking :=
  { bookingQ with
    participant_id := "P001"
    name := "Pat"
    booking_status := "Cancelled"
    notes := "Cancelled: earlier reason"
    cancellation_time := "2025-04-01 09:00:00" }

/-- An Active booking whose stored dosing_date does not parse as a date. -/
def badDateBooking : Booking :=
  { bookingQ with dosing_date := "junk" }

/-- An active 5-hour clock-interval slot starting 12:00 (720 minutes). -/
def fuAt720 : IntervalBooking :=
  { visit_date := 0
    start_minutes := 720
    duration_minutes := 300
    visit_kind := "follow_up"
    status := "Active" }

/-- An active 5-hour clock-interval slot starting 17:00 (1020 minutes). -/
def fuAt1020 : IntervalBooking :=
  { fuAt720 with start_minutes := 1020 }

theorem stepBackToMonday_eq (fuel : Nat) (c : Int) (h : weekday c < (fuel : Int)) :
    stepBackToMonday fuel c = some (c - weekday c) := by
  induction fuel generalizing c with
  | zero =>
    exfalso
    unfold weekday at h
    omega
  | succ n ih =>
    by_cases hc : weekday c = 0
    · simp [stepBackToMonday, hc]
    · have hstep : weekday (c - 1) = weekday c - 1 := by
        unfold weekday at hc ⊢
        omega
      have hlt : weekday (c - 1) < (n : Int) := by
        rw [hstep]
        push_cast at h ⊢
        omega
      simp only [stepBackToMonday]
      rw [if_neg hc, ih (c - 1) hlt, hstep]
      congr 1
      omega

theorem stepFwdToWeekday_eq (target : Int) (h0 : 0 ≤ target) (h7 : target < 7)
    (fuel : Nat) (c : Int) (h : (target - weekday c) % 7 < (fuel : Int)) :
    stepFwdToWeekday target fuel c = some (c + (target - weekday c) % 7) := by
  induction fuel generalizing c with
  | zero =>
    exfalso
    unfold weekday at h
    omega
  | succ n ih =>
    by_cases hc : weekday c = target
    · simp [stepFwdToWeekday, hc]
    · have hstep : (target - weekday (c + 1)) % 7 = (target - weekday c) % 7 - 1 := by
        unfold weekday at hc ⊢
        omega
      have hlt : (target - weekday (c + 1)) % 7 < (n : Int) := by
        rw [hstep]
        push_cast at h ⊢
        omega
      simp only [stepFwdToWeekday]
      rw [if_neg hc, ih (c + 1) hlt, hstep]
      congr 1
      omega

/-- C3 (confirmed): for every anchor date a falling on group A's weekday
(Wednesday, weekday 2), get_pre_scan_date a = a - 1; get_baseline_date a
returns the Monday a - 23 (so it falls on a Monday and a minus it is at least
22 days); and get_follow_up_date a WEDNESDAY returns a + 15, a Thursday lying
within the window from a + 14 to a + 20. -/
theorem C3_thm (a : Int) (h : weekday a = 2) :
    get_pre_scan_date a = a - 1 ∧
    (get_baseline_date a = some (a - 23) ∧ weekday (a - 23) = 0 ∧ 22 ≤ a - (a - 23)) ∧
    (get_follow_up_date a "WEDNESDAY" = some (a + 15) ∧ weekday (a + 15) = 3 ∧
      a + 14 ≤ a + 15 ∧ a + 15 ≤ a + 20) := by
  refine ⟨rfl, ⟨?_, ?_, by omega⟩, ⟨?_, ?_, by omega, by omega⟩⟩
  · have hw : weekday (a - 22) = 1 := by
      unfold weekday at h ⊢
      omega
    have hs := stepBackToMonday_eq 7 (a - 22) (by rw [hw]; omega)
    rw [hw] at hs
    unfold get_baseline_date
    rw [hs]
    show (if a - 60 ≤ a - 22 - 1 then some (a - 22 - 1) else none) = some (a - 23)
    rw [if_pos (by omega)]
    congr 1
    omega
  · unfold weekday at h ⊢
    omega
  · have hred : get_follow_up_date a "WEDNESDAY" = stepFwdToWeekday 3 7 (a + 14) := rfl
    have hw : weekday (a + 14) = 2 := by
      unfold weekday at h ⊢
      omega
    have hs := stepFwdToWeekday_eq 3 (by omega) (by omega) 7 (a + 14) (by rw [hw]; omega)
    rw [hw] at hs
    rw [hred, hs]
    congr 1
    omega
  · unfold weekday at h ⊢
    omega

/-- C3 witness: the generic statement instantiated at the concrete Wednesday
anchor 2025-06-04. -/
theorem C3_witness :
    get_baseline_date (toOrd 2025 6 4) = some (toOrd 2025 6 4 - 23) :=
  (C3_thm (toOrd 2025 6 4) (by decide)).2.1.1

/-- C9 (confirmed): for every calendar date d, get_baseline_date d returns a
date and never the no-valid-date result: the backward walk from d - 22 reaches
a Monday within at most 6 steps, so the result r always satisfies
22 <= d - r <= 28, inside the 60-day floor; the branch returning none is
unreachable. -/
theorem C9_thm (d : Int) :
    get_baseline_date d = some (d - 22 - weekday (d - 22)) ∧
    22 ≤ d - (d - 22 - weekday (d - 22)) ∧
    d - (d - 22 - weekday (d - 22)) ≤ 28 := by
  have hb : 0 ≤ weekday (d - 22) ∧ weekday (d - 22) < 7 := by
    unfold weekday
    omega
  have hs := stepBackToMonday_eq 7 (d - 22) (by omega)
  refine ⟨?_, by omega, by omega⟩
  unfold get_baseline_date
  rw [hs]
  show (if d - 60 ≤ d - 22 - weekday (d - 22) then some (d - 22 - weekday (d - 22)) else none) = _
  rw [if_pos (by omega)]

/-- C8 (confirmed): for the group A (WEDNESDAY) anchor date 2025-06-04,
get_pre_scan_date returns 2025-06-03, get_baseline_date returns 2025-05-12
(a Monday, 23 days before the anchor), and get_follow_up_date returns
2025-06-19 (a Thursday, 15 days after the anchor). -/
theorem C8_thm :
    get_pre_scan_date (toOrd 2025 6 4) = toOrd 2025 6 3 ∧
    get_baseline_date (toOrd 2025 6 4) = some (toOrd 2025 5 12) ∧
    weekday (toOrd 2025 5 12) = 0 ∧
    toOrd 2025 6 4 - toOrd 2025 5 12 = 23 ∧
    get_follow_up_date (toOrd 2025 6 4) "WEDNESDAY" = some (toOrd 2025 6 19) ∧
    weekday (toOrd 2025 6 19) = 3 ∧
    toOrd 2025 6 19 - toOrd 2025 6 4 = 15 := by
  decide

theorem dosing_candidates_mem (target d : Int) :
    d ∈ dosing_candidates target ↔
      toOrd 2025 5 1 ≤ d ∧ d ≤ toOrd 2025 11 29 ∧ weekday d = target := by
  have h1 : toOrd 2025 5 1 = 739372 := by decide
  have h2 : toOrd 2025 11 29 = 739584 := by decide
  simp only [dosing_candidates, h1, h2, List.mem_filter, List.mem_map, List.mem_range,
    beq_iff_eq]
  constructor
  · rintro ⟨⟨i, hi, rfl⟩, hw⟩
    refine ⟨by omega, by omega, hw⟩
  · rintro ⟨hlo, hhi, hw⟩
    exact ⟨⟨(d - 739372).toNat, by omega, by omega⟩, hw⟩

theorem dosing_candidates_pairwise (target : Int) :
    (dosing_candidates target).Pairwise (fun a b => a < b) := by
  unfold dosing_candidates
  apply List.Pairwise.filter
  refine List.Pairwise.map _ (fun a b hab => ?_) (List.pairwise_lt_range _)
  dsimp only
  omega

/-- C4 (confirmed): get_dosing_dates returns exactly those dates within the
booking horizon (2025-05-01 to 2025-11-29) whose weekday matches the group's
bound weekday (Wednesday = 2 for WEDNESDAY, Saturday = 5 for SATURDAY),
excluding every dosing date held by an Active booking in the snapshot, in
chronological order. -/
theorem C4_thm (bookings : List Booking) :
    (∀ d : Int, d ∈ get_dosing_dates "WEDNESDAY" bookings ↔
      toOrd 2025 5 1 ≤ d ∧ d ≤ toOrd 2025 11 29 ∧ weekday d = 2 ∧
        d ∉ booked_dosing_dates bookings) ∧
    (∀ d : Int, d ∈ get_dosing_dates "SATURDAY" bookings ↔
      toOrd 2025 5 1 ≤ d ∧ d ≤ toOrd 2025 11 29 ∧ weekday d = 5 ∧
        d ∉ booked_dosing_dates bookings) ∧
    (get_dosing_dates "WEDNESDAY" bookings).Pairwise (fun a b => a < b) ∧
    (get_dosing_dates "SATURDAY" bookings).Pairwise (fun a b => a < b) := by
  have hw : get_dosing_dates "WEDNESDAY" bookings =
      (dosing_candidates 2).filter
        (fun d => !(decide (d ∈ booked_dosing_dates bookings))) := rfl
  have hs : get_dosing_dates "SATURDAY" bookings =
      (dosing_candidates 5).filter
        (fun d => !(decide (d ∈ booked_dosing_dates bookings))) := rfl
  refine ⟨?_, ?_, ?_, ?_⟩
  · intro d
    rw [hw]
    simp only [List.mem_filter, dosing_candidates_mem, Bool.not_eq_true',
      decide_eq_false_iff_not]
    tauto
  · intro d
    rw [hs]
    simp only [List.mem_filter, dosing_candidates_mem, Bool.not_eq_true',
      decide_eq_false_iff_not]
    tauto
  · rw [hw]
    exact (dosing_candidates_pairwise 2).filter _
  · rw [hs]
    exact (dosing_candidates_pairwise 5).filter _

/-- C4 witness: with an empty snapshot, the Wednesday 2025-06-04 is offered. -/
theorem C4_witness : toOrd 2025 6 4 ∈ get_dosing_dates "WEDNESDAY" [] :=
  ((C4_thm []).1 (toOrd 2025 6 4)).mpr (by decide)

/-- C10 (confirmed): get_dosing_dates never fails on malformed stored data: an
Active booking whose dosing_date field does not parse as a date is skipped when
building the set of booked dates (the source's try/except around strptime is
the Option-valued parse here), so such a record never excludes any candidate
date; inserting it anywhere in the snapshot leaves the result unchanged. -/
theorem C10_thm (group : String) (l1 l2 : List Booking) (b : Booking)
    (h : parseDate b.dosing_date = none) :
    get_dosing_dates group (l1 ++ b :: l2) = get_dosing_dates group (l1 ++ l2) := by
  have hb : booked_dosing_dates (l1 ++ b :: l2) = booked_dosing_dates (l1 ++ l2) := by
    unfold booked_dosing_dates
    cases hact : (b.booking_status == "Active") <;>
      simp [List.filter_append, List.filter_cons, hact, List.filterMap_append,
        List.filterMap_cons, h]
  unfold get_dosing_dates
  rw [hb]

/-- C10 witness: an Active row whose dosing_date is the unparseable string junk
excludes nothing. -/
theorem C10_witness :
    get_dosing_dates "WEDNESDAY" [badDateBooking] = get_dosing_dates "WEDNESDAY" [] :=
  C10_thm "WEDNESDAY" [] [] badDateBooking (by decide)

theorem book_eq_of_valid (name pid email group : String)
    (baseline pre dosing follow : Int) (pt ft now : String) (s : List Booking)
    (hv : validate_booking baseline pre dosing follow group = true)
    (hdup : ∀ b ∈ s, b.booking_status = "Active" → b.participant_id ≠ pid) :
    book_participant name pid email group baseline pre dosing follow pt ft now s =
      ((true, "Booking successful"),
        s ++ [new_booking_record name pid email group baseline pre dosing follow pt ft now]) := by
  have hany : ((s.filter (fun b => b.booking_status == "Active")).any
      (fun b => b.participant_id == pid)) = false := by
    rw [List.any_eq_false]
    intro b hb
    have hmem := List.mem_filter.mp hb
    have hact : b.booking_status = "Active" := by simpa using hmem.2
    simpa using hdup b hmem.1 hact
  simp [book_participant, hv, hany]

/-- C1 (corrected): immediately before persisting, book_participant re-checks
only the date-derivation rules and the duplicate-active-participant constraint
against the in-memory snapshot; it re-runs no slot-availability check, so
whenever the dates are valid and the participant id has no Active booking the
call returns success and appends the record, even when every proposed slot
(baseline categorical slot, pre-dosing time, follow-up time, dosing date) is
occupied by Active bookings of other participants. -/
theorem C1_thm (name pid email group : String)
    (baseline pre dosing follow : Int) (pt ft now : String) (s : List Booking)
    (hv : validate_booking baseline pre dosing follow group = true)
    (hdup : ∀ b ∈ s, b.booking_status = "Active" → b.participant_id ≠ pid) :
    book_participant name pid email group baseline pre dosing follow pt ft now s =
      ((true, "Booking successful"),
        s ++ [new_booking_record name pid email group baseline pre dosing follow pt ft now]) :=
  book_eq_of_valid name pid email group baseline pre dosing follow pt ft now s hv hdup

/-- C1 counterexample to the claim as stated: in the snapshot whose single
Active booking (of another participant) occupies the proposed baseline slot,
pre-dosing time, follow-up time and dosing date, book_participant still
returns success and appends a record instead of failing with a conflict. -/
theorem C1_counterexample :
    check_baseline_availability (toOrd 2025 5 12) "WEDNESDAY" [bookingQ] = false ∧
    get_available_pre_dosing_times (toOrd 2025 6 3) "WEDNESDAY" [bookingQ] = ["Evening"] ∧
    get_available_follow_up_times (toOrd 2025 6 19) "WEDNESDAY" [bookingQ] = ["Evening"] ∧
    toOrd 2025 6 4 ∉ get_dosing_dates "WEDNESDAY" [bookingQ] ∧
    (book_participant "Pat" "P001" "p@example.com" "WEDNESDAY" (toOrd 2025 5 12)
      (toOrd 2025 6 3) (toOrd 2025 6 4) (toOrd 2025 6 19) "Daytime" "Daytime"
      "2025-05-02 09:00:00" [bookingQ]).1 = (true, "Booking successful") ∧
    (book_participant "Pat" "P001" "p@example.com" "WEDNESDAY" (toOrd 2025 5 12)
      (toOrd 2025 6 3) (toOrd 2025 6 4) (toOrd 2025 6 19) "Daytime" "Daytime"
      "2025-05-02 09:00:00" [bookingQ]).2.length = 2 := by
  decide

/-- C1 witness: the corrected statement instantiated at the fully-conflicting
concrete snapshot. -/
theorem C1_witness :
    book_participant "Pat" "P001" "p@example.com" "WEDNESDAY" (toOrd 2025 5 12)
      (toOrd 2025 6 3) (toOrd 2025 6 4) (toOrd 2025 6 19) "Daytime" "Daytime"
      "2025-05-02 09:00:00" [bookingQ] =
      ((true, "Booking successful"),
        [bookingQ] ++ [new_booking_record "Pat" "P001" "p@example.com" "WEDNESDAY"
          (toOrd 2025 5 12) (toOrd 2025 6 3) (toOrd 2025 6 4) (toOrd 2025 6 19)
          "Daytime" "Daytime" "2025-05-02 09:00:00"]) :=
  C1_thm "Pat" "P001" "p@example.com" "WEDNESDAY" (toOrd 2025 5 12)
    (toOrd 2025 6 3) (toOrd 2025 6 4) (toOrd 2025 6 19) "Daytime" "Daytime"
    "2025-05-02 09:00:00" [bookingQ] (by decide) (by decide)

/-- C2 (corrected): for every bookings state containing an Active booking with
participant id P, book_participant invoked with participant_id = P returns
failure and appends no record; the failure reports the duplicate-participant
conflict whenever the proposed dates pass date validation (when they do not,
the earlier date-validation failure is reported instead, since validation runs
first). Bookings with id P that are all Cancelled do not trigger the duplicate
rejection: with valid dates the call succeeds. -/
theorem C2_thm :
    (∀ (name pid email group : String) (baseline pre dosing follow : Int)
        (pt ft now : String) (s : List Booking),
      (∃ b ∈ s, b.booking_status = "Active" ∧ b.participant_id = pid) →
        (book_participant name pid email group baseline pre dosing follow pt ft now s).1.1 =
          false ∧
        (book_participant name pid email group baseline pre dosing follow pt ft now s).2 = s ∧
        (validate_booking baseline pre dosing follow group = true →
          (book_participant name pid email group baseline pre dosing follow pt ft now s).1.2 =
            "Participant ID already has an active booking")) ∧
    (∀ (name pid email group : String) (baseline pre dosing follow : Int)
        (pt ft now : String) (s : List Booking),
      (∀ b ∈ s, b.participant_id = pid → b.booking_status ≠ "Active") →
      validate_booking baseline pre dosing follow group = true →
        (book_participant name pid email group baseline pre dosing follow pt ft now s).1.1 =
          true) := by
  constructor
  · intro name pid email group baseline pre dosing follow pt ft now s hdup
    obtain ⟨b, hbmem, hact, hpid⟩ := hdup
    have hany : ((s.filter (fun x => x.booking_status == "Active")).any
        (fun x => x.participant_id == pid)) = true := by
      rw [List.any_eq_true]
      exact ⟨b, List.mem_filter.mpr ⟨hbmem, by simp [hact]⟩, by simp [hpid]⟩
    by_cases hv : validate_booking baseline pre dosing follow group = true
    · refine ⟨?_, ?_, fun _ => ?_⟩ <;> simp [book_participant, hv, hany]
    · have hv' : validate_booking baseline pre dosing follow group = false := by
        revert hv
        cases validate_booking baseline pre dosing follow group <;> simp
      refine ⟨?_, ?_, fun hvv => ?_⟩
      · simp [book_participant, hv']
      · simp [book_participant, hv']
      · rw [hvv] at hv'
        exact Bool.noConfusion hv'
  · intro name pid email group baseline pre dosing follow pt ft now s h hv
    rw [book_eq_of_valid name pid email group baseline pre dosing follow pt ft now s hv
      (fun b hbm hact hpid => h b hbm hpid hact)]

/-- C2 counterexample to the claim as stated: with an Active P001 booking in
the state, a repeat P001 booking whose dosing date is a Thursday is rejected
with the invalid-dates message, not the duplicate-participant conflict, so the
duplicate conflict is not reported regardless of the chosen dates. -/
theorem C2_counterexample :
    (book_participant "Pat" "P001" "p@example.com" "WEDNESDAY" (toOrd 2025 5 12)
      (toOrd 2025 6 4) (toOrd 2025 6 5) (toOrd 2025 6 19) "Daytime" "Daytime"
      "t" [activeP1]).1 =
      (false, "Invalid booking dates. Please try again with different dates.") ∧
    ((false, "Invalid booking dates. Please try again with different dates.") : Bool × String) ≠
      (false, "Participant ID already has an active booking") := by
  decide

/-- C2 witness: the corrected statement instantiated concretely: a duplicate
Active P001 with valid dates gets the duplicate conflict and no append, while
a P001 whose only booking is Cancelled books successfully. -/
theorem C2_witness :
    ((book_participant "Pat" "P001" "p@example.com" "WEDNESDAY" (toOrd 2025 5 12)
        (toOrd 2025 6 3) (toOrd 2025 6 4) (toOrd 2025 6 19) "Daytime" "Daytime"
        "t" [activeP1]).1.1 = false ∧
      (book_participant "Pat" "P001" "p@example.com" "WEDNESDAY" (toOrd 2025 5 12)
        (toOrd 2025 6 3) (toOrd 2025 6 4) (toOrd 2025 6 19) "Daytime" "Daytime"
        "t" [activeP1]).2 = [activeP1] ∧
      (book_participant "Pat" "P001" "p@example.com" "WEDNESDAY" (toOrd 2025 5 12)
        (toOrd 2025 6 3) (toOrd 2025 6 4) (toOrd 2025 6 19) "Daytime" "Daytime"
        "t" [activeP1]).1.2 = "Participant ID already has an active booking") ∧
    (book_participant "Pat" "P001" "p@example.com" "WEDNESDAY" (toOrd 2025 5 12)
      (toOrd 2025 6 3) (toOrd 2025 6 4) (toOrd 2025 6 19) "Daytime" "Daytime"
      "t" [cancelledP1]).1.1 = true := by
  have h1 := C2_thm.1 "Pat" "P001" "p@example.com" "WEDNESDAY" (toOrd 2025 5 12)
    (toOrd 2025 6 3) (toOrd 2025 6 4) (toOrd 2025 6 19) "Daytime" "Daytime" "t"
    [activeP1] (by decide)
  exact ⟨⟨h1.1, h1.2.1, h1.2.2 (by decide)⟩,
    C2_thm.2 "Pat" "P001" "p@example.com" "WEDNESDAY" (toOrd 2025 5 12)
      (toOrd 2025 6 3) (toOrd 2025 6 4) (toOrd 2025 6 19) "Daytime" "Daytime" "t"
      [cancelledP1] (by decide) (by decide)⟩

theorem cancel_not_found (pid reason now : String) (s : List Booking)
    (h : ∀ b ∈ s, b.participant_id ≠ pid) :
    cancel_booking pid reason now s =
      ((false, "Could not find booking for participant ID: " ++ pid), s) := by
  have hf : s.filter (fun b => b.participant_id == pid) = [] := by
    rw [List.filter_eq_nil_iff]
    intro b hb
    simpa using h b hb
  simp [cancel_booking, hf]

theorem updateFirstMatch_eq (pid reason now : String) :
    ∀ (l1 : List Booking) (b : Booking) (l2 : List Booking),
      (∀ x ∈ l1, x.participant_id ≠ pid) → b.participant_id = pid →
      updateFirstMatch pid reason now (l1 ++ b :: l2) =
        l1 ++ cancelFields reason now b :: l2
  | [], b, l2, _, hb => by simp [updateFirstMatch, hb]
  | a :: t, b, l2, h1, hb => by
    have ha : (a.participant_id == pid) = false := by
      simpa using h1 a (by simp)
    simp only [List.cons_append, updateFirstMatch, ha]
    simp only [Bool.false_eq_true, if_false, List.cons.injEq, true_and]
    exact updateFirstMatch_eq pid reason now t b l2
      (fun x hx => h1 x (by simp [hx])) hb

theorem cancel_found (pid reason now : String) (l1 l2 : List Booking) (b : Booking)
    (h1 : ∀ x ∈ l1, x.participant_id ≠ pid) (hb : b.participant_id = pid) :
    cancel_booking pid reason now (l1 ++ b :: l2) =
      ((true, "Booking cancelled successfully"),
        l1 ++ cancelFields reason now b :: l2) := by
  have hmem : b ∈ (l1 ++ b :: l2).filter (fun x => x.participant_id == pid) :=
    List.mem_filter.mpr ⟨by simp, by simp [hb]⟩
  have hie : ((l1 ++ b :: l2).filter (fun x => x.participant_id == pid)).isEmpty = false := by
    cases hfe : ((l1 ++ b :: l2).filter (fun x => x.participant_id == pid)).isEmpty
    · rfl
    · rw [List.isEmpty_iff] at hfe
      exact absurd (hfe ▸ hmem) (List.not_mem_nil b)
  have hstep : cancel_booking pid reason now (l1 ++ b :: l2) =
      ((true, "Booking cancelled successfully"),
        updateFirstMatch pid reason now (l1 ++ b :: l2)) := by
    simp only [cancel_booking, hie]
    simp
  rw [hstep, updateFirstMatch_eq pid reason now l1 b l2 h1 hb]

theorem check_baseline_append_cancelled (d : Int) (g : String) (s : List Booking)
    (b : Booking) (hb : b.booking_status = "Cancelled") :
    check_baseline_availability d g (s ++ [b]) = check_baseline_availability d g s := by
  have hAct : (("Cancelled" : String) == "Active") = false := by decide
  cases s with
  | nil => simp [check_baseline_availability, hb, hAct]
  | cons a t =>
    simp [check_baseline_availability, List.filter_append, List.filter_cons, hb, hAct]

theorem filter_append_single_false (p : Booking → Bool) (l : List Booking)
    (b : Booking) (hp : p b = false) : (l ++ [b]).filter p = l.filter p := by
  rw [List.filter_append]
  simp [List.filter_cons, hp]

theorem pre_times_append_cancelled (d : Int) (g : String) (s : List Booking)
    (b : Booking) (hb : b.booking_status = "Cancelled") :
    get_available_pre_dosing_times d g (s ++ [b]) =
      get_available_pre_dosing_times d g s := by
  have hAct : (("Cancelled" : String) == "Active") = false := by decide
  have hp : (fun x : Booking =>
      x.booking_status == "Active" && x.pre_dosing_date == formatDate d) b = false := by
    simp [hb, hAct]
  cases s with
  | nil => simp [get_available_pre_dosing_times, hb, hAct]
  | cons a t =>
    simp only [get_available_pre_dosing_times,
      filter_append_single_false (fun x : Booking =>
        x.booking_status == "Active" && x.pre_dosing_date == formatDate d) (a :: t) b hp]
    simp

theorem follow_times_append_cancelled (d : Int) (g : String) (s : List Booking)
    (b : Booking) (hb : b.booking_status = "Cancelled") :
    get_available_follow_up_times d g (s ++ [b]) =
      get_available_follow_up_times d g s := by
  have hAct : (("Cancelled" : String) == "Active") = false := by decide
  have hp : (fun x : Booking =>
      x.booking_status == "Active" && x.follow_up_date == formatDate d) b = false := by
    simp [hb, hAct]
  cases s with
  | nil => simp [get_available_follow_up_times, hb, hAct]
  | cons a t =>
    simp only [get_available_follow_up_times,
      filter_append_single_false (fun x : Booking =>
        x.booking_status == "Active" && x.follow_up_date == formatDate d) (a :: t) b hp]
    simp

/-- C7 (corrected): cancel_booking returns the not-found failure and leaves the
state unchanged only when no booking row of any status carries the participant
id; when the id is present only on Cancelled rows the call does not fail: it
reports success and overwrites the cancellation fields (status, notes and
cancellation time) of the first matching row, so the already-cancelled guard
described by the claim is absent from the code. -/
theorem C7_thm (pid reason now : String) (s : List Booking)
    (h : ∀ b ∈ s, b.participant_id = pid → b.booking_status ≠ "Active") :
    ((∀ b ∈ s, b.participant_id ≠ pid) →
      cancel_booking pid reason now s =
        ((false, "Could not find booking for participant ID: " ++ pid), s)) ∧
    (∀ (l1 : List Booking) (b : Booking) (l2 : List Booking),
      s = l1 ++ b :: l2 → (∀ x ∈ l1, x.participant_id ≠ pid) →
      b.participant_id = pid →
      cancel_booking pid reason now s =
        ((true, "Booking cancelled successfully"),
          l1 ++ cancelFields reason now b :: l2)) := by
  refine ⟨fun hn => cancel_not_found pid reason now s hn, ?_⟩
  intro l1 b l2 hs h1 hb
  rw [hs]
  exact cancel_found pid reason now l1 l2 b h1 hb

/-- C7 counterexample to the claim as stated: cancelling P001 whose only
booking is already Cancelled reports success, not failure, and overwrites the
notes and cancellation-time audit fields of the record. -/
theorem C7_counterexample :
    (cancel_booking "P001" "second reason" "2025-04-02 10:00:00" [cancelledP1]).1.1 = true ∧
    (cancel_booking "P001" "second reason" "2025-04-02 10:00:00" [cancelledP1]).2 =
      [cancelFields "second reason" "2025-04-02 10:00:00" cancelledP1] ∧
    cancelledP1.notes ≠
      (cancelFields "second reason" "2025-04-02 10:00:00" cancelledP1).notes ∧
    cancelledP1.cancellation_time ≠
      (cancelFields "second reason" "2025-04-02 10:00:00" cancelledP1).cancellation_time := by
  decide

/-- C7 witness: the corrected statement instantiated concretely; an id with no
matching row of any status gets the not-found failure and an unchanged state. -/
theorem C7_witness :
    cancel_booking "P999" "r" "t" [cancelledP1] =
      ((false, "Could not find booking for participant ID: " ++ "P999"), [cancelledP1]) :=
  (C7_thm "P999" "r" "t" [cancelledP1] (by decide)).1 (by decide)

/-- C6 (corrected): in every state where the participant id appears on no
existing row of any status, a successful book_participant followed by a
successful cancel_booking for that participant restores every availability
view (check_baseline_availability, get_available_pre_dosing_times,
get_available_follow_up_times) exactly as before the booking, because rows
with status Cancelled are excluded from every conflict check. (If the state
already holds a row with the same id - for instance a previously Cancelled
booking - cancel_booking updates that first matching row instead of the new
one and availability is not restored; see the counterexample.) -/
theorem C6_thm (name pid email group : String)
    (baseline pre dosing follow : Int) (pt ft now reason now2 : String)
    (s : List Booking)
    (hv : validate_booking baseline pre dosing follow group = true)
    (hno : ∀ b ∈ s, b.participant_id ≠ pid) :
    (book_participant name pid email group baseline pre dosing follow pt ft now s).1.1 =
      true ∧
    (cancel_booking pid reason now2
      (book_participant name pid email group baseline pre dosing follow pt ft now s).2).1.1 =
      true ∧
    (∀ (d : Int) (g : String),
      check_baseline_availability d g
        (cancel_booking pid reason now2
          (book_participant name pid email group baseline pre dosing follow pt ft now s).2).2 =
      check_baseline_availability d g s) ∧
    (∀ (d : Int) (g : String),
      get_available_pre_dosing_times d g
        (cancel_booking pid reason now2
          (book_participant name pid email group baseline pre dosing follow pt ft now s).2).2 =
      get_available_pre_dosing_times d g s) ∧
    (∀ (d : Int) (g : String),
      get_available_follow_up_times d g
        (cancel_booking pid reason now2
          (book_participant name pid email group baseline pre dosing follow pt ft now s).2).2 =
      get_available_follow_up_times d g s) := by
  have hbook := book_eq_of_valid name pid email group baseline pre dosing follow pt ft now s
    hv (fun b hb _ => hno b hb)
  have hpid : (new_booking_record name pid email group baseline pre dosing follow
      pt ft now).participant_id = pid := rfl
  have hcanc := cancel_found pid reason now2 s []
    (new_booking_record name pid email group baseline pre dosing follow pt ft now) hno hpid
  have hst : (cancelFields reason now2 (new_booking_record name pid email group baseline
      pre dosing follow pt ft now)).booking_status = "Cancelled" := rfl
  refine ⟨by rw [hbook], ?_, ?_, ?_, ?_⟩
  · rw [hbook]
    show (cancel_booking pid reason now2 (s ++ [new_booking_record name pid email group
      baseline pre dosing follow pt ft now])).1.1 = true
    rw [hcanc]
  · intro d g
    rw [hbook]
    show check_baseline_availability d g (cancel_booking pid reason now2
      (s ++ [new_booking_record name pid email group baseline pre dosing follow
        pt ft now])).2 = check_baseline_availability d g s
    rw [hcanc]
    exact check_baseline_append_cancelled d g s _ hst
  · intro d g
    rw [hbook]
    show get_available_pre_dosing_times d g (cancel_booking pid reason now2
      (s ++ [new_booking_record name pid email group baseline pre dosing follow
        pt ft now])).2 = get_available_pre_dosing_times d g s
    rw [hcanc]
    exact pre_times_append_cancelled d g s _ hst
  · intro d g
    rw [hbook]
    show get_available_follow_up_times d g (cancel_booking pid reason now2
      (s ++ [new_booking_record name pid email group baseline pre dosing follow
        pt ft now])).2 = get_available_follow_up_times d g s
    rw [hcanc]
    exact follow_times_append_cancelled d g s _ hst

/-- C6 counterexample to the claim as stated: starting from a state whose only
row is a Cancelled P001 booking, booking P001 again succeeds, cancelling P001
then also reports success, yet the baseline slot stays unavailable: the cancel
updated the first matching (already cancelled) row, not the new Active one. -/
theorem C6_counterexample :
    check_baseline_availability (toOrd 2025 5 12) "WEDNESDAY" [cancelledP1] = true ∧
    (book_participant "Pat" "P001" "p@example.com" "WEDNESDAY" (toOrd 2025 5 12)
      (toOrd 2025 6 3) (toOrd 2025 6 4) (toOrd 2025 6 19) "Daytime" "Daytime" "t"
      [cancelledP1]).1.1 = true ∧
    (cancel_booking "P001" "changed my mind" "t2"
      (book_participant "Pat" "P001" "p@example.com" "WEDNESDAY" (toOrd 2025 5 12)
        (toOrd 2025 6 3) (toOrd 2025 6 4) (toOrd 2025 6 19) "Daytime" "Daytime" "t"
        [cancelledP1]).2).1.1 = true ∧
    check_baseline_availability (toOrd 2025 5 12) "WEDNESDAY"
      (cancel_booking "P001" "changed my mind" "t2"
        (book_participant "Pat" "P001" "p@example.com" "WEDNESDAY" (toOrd 2025 5 12)
          (toOrd 2025 6 3) (toOrd 2025 6 4) (toOrd 2025 6 19) "Daytime" "Daytime" "t"
          [cancelledP1]).2).2 = false := by
  decide

/-- C6 witness: the corrected statement instantiated at the empty state with a
fresh participant, availability views evaluated at the booked slots. -/
theorem C6_witness :
    (book_participant "Pat" "P001" "p@example.com" "WEDNESDAY" (toOrd 2025 5 12)
      (toOrd 2025 6 3) (toOrd 2025 6 4) (toOrd 2025 6 19) "Daytime" "Daytime" "t"
      []).1.1 = true ∧
    (cancel_booking "P001" "r" "t2"
      (book_participant "Pat" "P001" "p@example.com" "WEDNESDAY" (toOrd 2025 5 12)
        (toOrd 2025 6 3) (toOrd 2025 6 4) (toOrd 2025 6 19) "Daytime" "Daytime" "t"
        []).2).1.1 = true ∧
    check_baseline_availability (toOrd 2025 5 12) "WEDNESDAY"
      (cancel_booking "P001" "r" "t2"
        (book_participant "Pat" "P001" "p@example.com" "WEDNESDAY" (toOrd 2025 5 12)
          (toOrd 2025 6 3) (toOrd 2025 6 4) (toOrd 2025 6 19) "Daytime" "Daytime" "t"
          []).2).2 =
      check_baseline_availability (toOrd 2025 5 12) "WEDNESDAY" [] ∧
    get_available_pre_dosing_times (toOrd 2025 6 3) "WEDNESDAY"
      (cancel_booking "P001" "r" "t2"
        (book_participant "Pat" "P001" "p@example.com" "WEDNESDAY" (toOrd 2025 5 12)
          (toOrd 2025 6 3) (toOrd 2025 6 4) (toOrd 2025 6 19) "Daytime" "Daytime" "t"
          []).2).2 =
      get_available_pre_dosing_times (toOrd 2025 6 3) "WEDNESDAY" [] ∧
    get_available_follow_up_times (toOrd 2025 6 19) "WEDNESDAY"
      (cancel_booking "P001" "r" "t2"
        (book_participant "Pat" "P001" "p@example.com" "WEDNESDAY" (toOrd 2025 5 12)
          (toOrd 2025 6 3) (toOrd 2025 6 4) (toOrd 2025 6 19) "Daytime" "Daytime" "t"
          []).2).2 =
      get_available_follow_up_times (toOrd 2025 6 19) "WEDNESDAY" [] := by
  have h := C6_thm "Pat" "P001" "p@example.com" "WEDNESDAY" (toOrd 2025 5 12)
    (toOrd 2025 6 3) (toOrd 2025 6 4) (toOrd 2025 6 19) "Daytime" "Daytime" "t" "r" "t2"
    [] (by decide) (by decide)
  exact ⟨h.1, h.2.1, h.2.2.1 (toOrd 2025 5 12) "WEDNESDAY",
    h.2.2.2.1 (toOrd 2025 6 3) "WEDNESDAY", h.2.2.2.2 (toOrd 2025 6 19) "WEDNESDAY"⟩

/-- C5 (corrected): for clock-interval time descriptors, the availability check
computes the half-open interval from start to start plus duration for the
proposal and reports a conflict if and only if some Active booking's interval
for the same visit kind and date overlaps it under
max(startA, startB) < min(endA, endB). Under that very rule, a proposed 5-hour
slot starting 14:00 conflicts with an existing active 5-hour slot starting
12:00 and ALSO with one starting 17:00 (the intervals 14:00-19:00 and
17:00-22:00 overlap on 17:00-19:00); it is the 12:00 and 17:00 slots that are
adjacent and non-overlapping. -/
theorem C5_thm :
    (∀ (pdate : Int) (kind : String) (pstart pdur : Nat)
        (snapshot : List IntervalBooking),
      interval_is_available pdate kind pstart pdur snapshot = false ↔
        ∃ b ∈ snapshot, b.status = "Active" ∧ b.visit_kind = kind ∧
          b.visit_date = pdate ∧
          max pstart b.start_minutes <
            min (pstart + pdur) (b.start_minutes + b.duration_minutes)) ∧
    intervalConflict 840 300 720 300 = true ∧
    intervalConflict 840 300 1020 300 = true ∧
    intervalConflict 720 300 1020 300 = false := by
  refine ⟨?_, by decide, by decide, by decide⟩
  intro pdate kind pstart pdur snapshot
  simp only [interval_is_available, Bool.not_eq_false', List.any_eq_true,
    Bool.and_eq_true, beq_iff_eq, intervalConflict, decide_eq_true_eq]
  tauto

/-- C5 counterexample to the claim as stated: under the spec's own half-open
overlap rule, the proposed 5-hour slot starting 14:00 (840 minutes) does
conflict with an existing active 5-hour slot starting 17:00 (1020 minutes):
the claim's asserted non-conflict is false. -/
theorem C5_counterexample :
    interval_is_available 0 "follow_up" 840 300 [fuAt1020] = false ∧
    intervalConflict 840 300 1020 300 = true := by
  decide

/-- C5 witness: the overlap characterisation instantiated: the 14:00 proposal
is reported unavailable against the active 12:00 slot of the same kind and
date. -/
theorem C5_witness :
    interval_is_available 0 "follow_up" 840 300 [fuAt720] = false :=
  (C5_thm.1 0 "follow_up" 840 300 [fuAt720]).mpr
    ⟨fuAt720, by decide, by decide, by decide, by decide, by decide⟩
